import Mathlib

/-!
Shallow embedding of `smart_layout_selector.py` (class `SmartLayoutSelector`)
from the mcp-extendicare-ppt repository: the content analyzer
(`analyze_content` and its helpers), the scoring engine
(`_calculate_layout_score`, `_generate_recommendation_reason`), the
recommendation ranker (`recommend_layouts`) and the layout-detail helpers
(`get_layout_details`, `_summarize_placeholders`), together with theorems
settling the specification claims about them.

Python values are modelled explicitly: dicts become association lists in
insertion order, floats become `Int` (every score contribution is an exact
integer), `dict.get` defaults become `Option.getD`, and Python's stable
`list.sort(key=..., reverse=True)` becomes a stable insertion sort (the
output of a stable sort under a fixed key is unique, so any stable sort is
a faithful model).
-/

set_option maxHeartbeats 1600000
set_option maxRecDepth 8192

namespace SmartLayoutSel

/-- A Python value as appearing in content bundles: a string, a list, or a
string-keyed dict (modelled as an association list in insertion order). -/
inductive Value where
  | str : String → Value
  | list : List Value → Value
  | map : List (String × Value) → Value

/-- Python `sep.join(parts)`. -/
def pyJoin (sep : String) : List String → String
  | [] => ""
  | [x] => x
  | x :: xs => x ++ sep ++ pyJoin sep xs

mutual
/-- Python `repr` of a bundle value (quote escaping inside strings is not
modelled; no claim evaluates `repr` on strings containing quotes). -/
def reprVal : Value → String
  | .str s => "\x27" ++ s ++ "\x27"
  | .list items => "[" ++ pyJoin ", " (reprList items) ++ "]"
  | .map entries => "\x7b" ++ pyJoin ", " (reprEntries entries) ++ "\x7d"

def reprList : List Value → List String
  | [] => []
  | v :: vs => reprVal v :: reprList vs

def reprEntries : List (String × Value) → List String
  | [] => []
  | (k, v) :: rest => ("\x27" ++ k ++ "\x27: " ++ reprVal v) :: reprEntries rest
end

/-- Python `str(item)`: the identity on strings, `repr` on containers. -/
def pyStrOfVal : Value → String
  | .str s => s
  | .list items => "[" ++ pyJoin ", " (reprList items) ++ "]"
  | .map entries => "\x7b" ++ pyJoin ", " (reprEntries entries) ++ "\x7d"

/-- Boolean check that `n` is a prefix of the second list. -/
def listPre : List Char → List Char → Bool
  | [], _ => true
  | _ :: _, [] => false
  | a :: as, b :: bs => a == b && listPre as bs

/-- Boolean check that `n` occurs as a contiguous sublist of the second
list; models Python `needle in haystack` on strings. -/
def listInf : List Char → List Char → Bool
  | n, [] => n.isEmpty
  | n, c :: cs => listPre n (c :: cs) || listInf n cs

/-- Python `needle in haystack` for strings. -/
def inStr (needle hay : String) : Bool := listInf needle.toList hay.toList

/-- Python `s.lower()` (ASCII case folding, which covers every keyword the
selector uses). -/
def pyLower (s : String) : String := ⟨s.toList.map Char.toLower⟩

/-- Models `any(keyword in text.lower() for keyword in keywords)`. -/
def anyKeyword (keywords : List String) (text : String) : Bool :=
  keywords.any (fun k => inStr k (pyLower text))

/-- Models `len(text.split())`: the number of maximal runs of
non-whitespace characters. -/
def countWords (cs : List Char) : Nat :=
  (cs.foldl
    (fun st c =>
      if c.isWhitespace then (st.1, false)
      else if st.2 then st else (st.1 + 1, true))
    ((0 : Nat), false)).1

/-- The loop body of the text-corpus extraction in `analyze_content`:
string values and list values (elements passed through `str`) are appended
to the accumulator, each followed by a space; dict-typed values are
skipped by the `isinstance` chain. -/
def extractStep (all_text : String) (kv : String × Value) : String :=
  match kv.2 with
  | .str s => all_text ++ s ++ " "
  | .list items => all_text ++ pyJoin " " (items.map pyStrOfVal) ++ " "
  | .map _ => all_text

/-- The text-corpus extraction at the top of `analyze_content`: the dict
items are folded through `extractStep`; a bare string is the corpus
itself; any other bundle shape leaves the corpus empty. -/
def extract_text : Value → String
  | .map entries => entries.foldl extractStep ""
  | .str s => s
  | .list _ => ""

/-- Consumes one match of `\d+\.?\d*%?` from `cs`, whose head is a digit. -/
def afterNumMatch (cs : List Char) : List Char :=
  let cs1 := cs.dropWhile Char.isDigit
  let cs2 :=
    match cs1 with
    | '.' :: rest => rest.dropWhile Char.isDigit
    | _ => cs1
  match cs2 with
  | '%' :: rest => rest
  | _ => cs2

/-- Left-to-right non-overlapping scan for `\d+\.?\d*%?|\$\d+`, the regex
of `_count_data_points`; `fuel` is initialised to the text length and each
step consumes at least one character, so it never runs out. -/
def countDataAux : Nat → List Char → Nat
  | 0, _ => 0
  | _, [] => 0
  | fuel + 1, c :: cs =>
    if c.isDigit then countDataAux fuel (afterNumMatch (c :: cs)) + 1
    else if c = '$' then
      match cs with
      | [] => 0
      | d :: rest =>
        if d.isDigit then countDataAux fuel (rest.dropWhile Char.isDigit) + 1
        else countDataAux fuel cs
    else countDataAux fuel cs

/-- Models `_count_data_points`: `len(re.findall(r"\d+\.?\d*%?|\$\d+", text))`. -/
def count_data_points (text : String) : Nat :=
  countDataAux text.toList.length text.toList

/-- Models `_extract_metrics`: keeps each vocabulary keyword contained in
the lowered text, in vocabulary order. -/
def extract_metrics (text : String) : List String :=
  ["revenue", "profit", "ebitda", "growth", "margin", "roi", "kpi",
   "cost", "efficiency", "utilization", "occupancy", "satisfaction"].filter
    (fun k => inStr k (pyLower text))

/-- Models `_analyze_structure`. The dict-only checks run first and return
early; otherwise the text heuristics run. `len(text.split(sep))` equals
the number of occurrences of the separator plus one, which is how the
sentence-segment count is expressed here. -/
def analyze_structure (content : Value) (text : String) : String :=
  let dictResult : Option String :=
    match content with
    | .map entries =>
      if entries.any (fun kv =>
          (["left", "right", "before", "after", "vs"] : List String).contains kv.1) then
        some "comparison"
      else if entries.any (fun kv =>
          match kv.2 with
          | .list _ => true
          | _ => false) then
        some "list"
      else none
    | _ => none
  match dictResult with
  | some r => r
  | none =>
    if anyKeyword ["versus", "compared to", "vs", "while"] text then "comparison"
    else if anyKeyword ["first", "second", "third", "finally"] text then "list"
    else if 3 < text.toList.count '.' + 1 then "narrative"
    else "single_topic"

/-- Models `_determine_content_type`. -/
def determine_content_type (has_charts has_tables : Bool)
    (text_density structure_kind : String) : String :=
  if has_charts && has_tables then "dashboard"
  else if has_charts then "data_visualization"
  else if has_tables then "data_table"
  else if text_density = "high" then "narrative"
  else if structure_kind = "comparison" then "comparison"
  else if structure_kind = "list" then "bullet_points"
  else "general_content"

/-- The `ContentAnalysis` dataclass. -/
structure ContentAnalysis where
  content_type : String
  has_charts : Bool
  has_tables : Bool
  has_images : Bool
  text_density : String
  «structure» : String
  data_points : Nat
  key_metrics : List String
deriving DecidableEq

/-- Models `analyze_content`. -/
def analyze_content (content : Value) : ContentAnalysis :=
  let all_text := extract_text content
  let has_charts := anyKeyword
    ["chart", "graph", "revenue", "growth", "trend", "data", "metric", "kpi"] all_text
  let has_tables := anyKeyword
    ["table", "comparison", "vs", "versus", "compare"] all_text
  let has_images := anyKeyword
    ["image", "photo", "picture", "visual", "diagram"] all_text
  let word_count := countWords all_text.toList
  let text_density :=
    if word_count < 20 then "low"
    else if word_count < 100 then "medium"
    else "high"
  let structure_kind := analyze_structure content all_text
  let data_points := count_data_points all_text
  let key_metrics := extract_metrics all_text
  let content_type := determine_content_type has_charts has_tables text_density structure_kind
  { content_type := content_type
    has_charts := has_charts
    has_tables := has_tables
    has_images := has_images
    text_density := text_density
    «structure» := structure_kind
    data_points := data_points
    key_metrics := key_metrics }

/-- One placeholder entry of a layout descriptor; `Option` fields model
keys that may be absent from the metadata dict (`dict.get`). -/
structure Placeholder where
  semantic_name : Option String
  type : Option String
  content_guidelines : Option String
  required : Option Bool
  column : Option String
deriving DecidableEq

/-- One layout descriptor from the catalog metadata. -/
structure Layout where
  semantic_name : Option String
  category : Option String
  subcategory : Option String
  «structure» : Option String
  use_cases : Option (List String)
  placeholders : Option (List (String × Placeholder))
deriving DecidableEq

/-- Models `sum(1 for p in placeholders.values() if p.get('type') == 'chart')`. -/
def chartPlaceholderCount (layout_info : Layout) : Nat :=
  ((layout_info.placeholders.getD []).filter
    (fun p => p.2.type == some "chart")).length

/-- Models `sum(1 for p in placeholders.values() if p.get('type') in ['body', 'bullets'])`. -/
def textPlaceholderCount (layout_info : Layout) : Nat :=
  ((layout_info.placeholders.getD []).filter
    (fun p => p.2.type == some "body" || p.2.type == some "bullets")).length

/-- Python `case.replace(' ', '_')` (the pattern is a single character, so
the replacement is a character map). -/
def replaceSpaces (s : String) : String :=
  ⟨s.toList.map (fun c => if c = ' ' then '_' else c)⟩

/-- Models `_calculate_layout_score`, statement for statement; the float
accumulator is an `Int` because every contribution is an exact integer. -/
def calculate_layout_score (analysis : ContentAnalysis) (layout_info : Layout) : Int :=
  let score : Int := 0
  let category := layout_info.category.getD ""
  let score :=
    if analysis.content_type = "data_visualization" ∧ category = "data_visualization" then
      score + 3
    else if analysis.content_type = "narrative" ∧ category = "content" then
      score + 3
    else if analysis.content_type = "dashboard" ∧
        inStr "dashboard" (layout_info.subcategory.getD "") = true then
      score + 3
    else score
  let structure_tag := layout_info.«structure».getD ""
  let score :=
    if analysis.«structure» = "comparison" ∧ inStr "two_column" structure_tag = true then
      score + 2
    else if analysis.«structure» = "single_topic" ∧
        inStr "single_column" structure_tag = true then
      score + 2
    else score
  let chart_placeholders := chartPlaceholderCount layout_info
  let score :=
    if analysis.has_charts then
      let score := if 0 < chart_placeholders then score + 2 else score
      let score :=
        if 5 < analysis.data_points ∧ 2 ≤ chart_placeholders then score + 1 else score
      score
    else if 0 < chart_placeholders then score - 1
    else score
  let text_placeholders := textPlaceholderCount layout_info
  let score :=
    if analysis.text_density = "high" ∧ 2 ≤ text_placeholders then score + 1
    else if analysis.text_density = "low" ∧ text_placeholders = 1 then score + 1
    else score
  let score :=
    if ((layout_info.use_cases.getD []).map replaceSpaces).contains analysis.content_type then
      score + 1
    else score
  score

/-- Modelled from the spec: the eleven-term additive bonus/penalty table of
section 4.3, every term evaluated independently and summed. Written to be
compared with `calculate_layout_score`, which is translated from the code. -/
def score_spec (analysis : ContentAnalysis) (layout_info : Layout) : Int :=
  (if analysis.content_type = "data_visualization" ∧
      layout_info.category.getD "" = "data_visualization" then 3 else 0)
  + (if analysis.content_type = "narrative" ∧
      layout_info.category.getD "" = "content" then 3 else 0)
  + (if analysis.content_type = "dashboard" ∧
      inStr "dashboard" (layout_info.subcategory.getD "") = true then 3 else 0)
  + (if analysis.«structure» = "comparison" ∧
      inStr "two_column" (layout_info.«structure».getD "") = true then 2 else 0)
  + (if analysis.«structure» = "single_topic" ∧
      inStr "single_column" (layout_info.«structure».getD "") = true then 2 else 0)
  + (if analysis.has_charts = true ∧ 0 < chartPlaceholderCount layout_info then 2 else 0)
  + (if analysis.has_charts = true ∧ 5 < analysis.data_points ∧
      2 ≤ chartPlaceholderCount layout_info then 1 else 0)
  + (if analysis.has_charts = false ∧ 0 < chartPlaceholderCount layout_info then -1 else 0)
  + (if analysis.text_density = "high" ∧ 2 ≤ textPlaceholderCount layout_info then 1 else 0)
  + (if analysis.text_density = "low" ∧ textPlaceholderCount layout_info = 1 then 1 else 0)
  + (if ((layout_info.use_cases.getD []).map replaceSpaces).contains
        analysis.content_type then 1 else 0)

/-- Models `_generate_recommendation_reason`. -/
def generate_recommendation_reason (analysis : ContentAnalysis)
    (layout_info : Layout) (score : Int) : String :=
  let layout_name := layout_info.semantic_name.getD "Unknown Layout"
  let reasons : List String :=
    if 3 ≤ score then ["Perfect match for " ++ analysis.content_type]
    else if 2 ≤ score then ["Good fit for " ++ analysis.content_type]
    else if 1 ≤ score then ["Suitable for " ++ analysis.content_type]
    else ["Partial match"]
  let reasons :=
    if analysis.has_charts then
      let chart_count := chartPlaceholderCount layout_info
      if 0 < chart_count then
        reasons ++ ["Supports " ++ Nat.repr chart_count ++ " chart(s)"]
      else reasons
    else reasons
  let reasons :=
    if analysis.«structure» = "comparison" ∧
        inStr "two_column" (layout_info.«structure».getD "") = true then
      reasons ++ ["Ideal for comparisons"]
    else reasons
  layout_name ++ ": " ++ pyJoin ", " reasons

/-- The per-entry loop of `recommend_layouts`, in catalog iteration order. -/
def scored_recommendations (layouts : List (String × Layout))
    (content : Value) : List (String × Int × String) :=
  let analysis := analyze_content content
  layouts.map (fun kv =>
    (kv.1, calculate_layout_score analysis kv.2,
     generate_recommendation_reason analysis kv.2 (calculate_layout_score analysis kv.2)))

/-- Stable insertion of one scored entry into a list sorted by descending
score: entries with strictly greater score are kept in front, so an
inserted entry lands before every entry of equal score that followed it. -/
def insertRec (x : String × Int × String) :
    List (String × Int × String) → List (String × Int × String)
  | [] => [x]
  | y :: ys => if x.2.1 < y.2.1 then y :: insertRec x ys else x :: y :: ys

/-- Stable sort by descending score; models
`recommendations.sort(key=lambda x: x[1], reverse=True)` (Python's sort is
stable, and a stable sort under a fixed key has a unique output). -/
def sortRecs : List (String × Int × String) → List (String × Int × String)
  | [] => []
  | x :: xs => insertRec x (sortRecs xs)

/-- Python `l[:n]` for an `int` bound, including the negative case. -/
def pySliceTo {α : Type} (l : List α) (n : Int) : List α :=
  l.take (if n < 0 then ((l.length : Int) + n).toNat else n.toNat)

/-- Models `recommend_layouts`; the catalog dict is passed explicitly as
`self.layouts` in iteration order. -/
def recommend_layouts (layouts : List (String × Layout)) (content : Value)
    (top_n : Int) : List (String × Int × String) :=
  pySliceTo (sortRecs (scored_recommendations layouts content)) top_n

/-- The summary dict built by `_summarize_placeholders`; the two count
dicts are association lists in insertion order. -/
structure PlaceholderSummary where
  total_count : Nat
  by_type : List (String × Nat)
  by_column : List (String × Nat)
  required_count : Nat
deriving DecidableEq

/-- Models `d[k] = d.get(k, 0) + 1` on an insertion-ordered dict. -/
def bump (m : List (String × Nat)) (k : String) : List (String × Nat) :=
  match m with
  | [] => [(k, 1)]
  | (k2, v) :: rest => if k2 = k then (k2, v + 1) :: rest else (k2, v) :: bump rest k

/-- The loop body of `_summarize_placeholders`. -/
def summarizeStep (summary : PlaceholderSummary)
    (kv : String × Placeholder) : PlaceholderSummary :=
  let ptype := kv.2.type.getD "unknown"
  let summary := { summary with by_type := bump summary.by_type ptype }
  let column := kv.2.column.getD "none"
  let summary := { summary with by_column := bump summary.by_column column }
  if kv.2.required.getD false then
    { summary with required_count := summary.required_count + 1 }
  else summary

/-- Models `_summarize_placeholders`. -/
def summarize_placeholders (layout : Layout) : PlaceholderSummary :=
  let placeholders := layout.placeholders.getD []
  placeholders.foldl summarizeStep
    { total_count := placeholders.length
      by_type := []
      by_column := []
      required_count := 0 }

/-- Python `layout_id in self.layouts` / `self.layouts[layout_id]` on the
catalog dict. -/
def lookupLayout (layouts : List (String × Layout)) (layout_id : String) :
    Option Layout :=
  (layouts.find? (fun kv => kv.1 == layout_id)).map (fun kv => kv.2)

/-- The value returned by `get_layout_details`: either the error dict
`{"error": ...}` or the enhanced layout dict (the copied layout plus the
`ai_optimized` flag and the placeholder summary). -/
inductive LayoutDetails where
  | errorDict : String → LayoutDetails
  | enhanced : Layout → Bool → PlaceholderSummary → LayoutDetails
deriving DecidableEq

/-- Models `get_layout_details`. -/
def get_layout_details (layouts : List (String × Layout))
    (layout_id : String) : LayoutDetails :=
  match lookupLayout layouts layout_id with
  | none => .errorDict ("Layout " ++ layout_id ++ " not found")
  | some layout => .enhanced layout true (summarize_placeholders layout)

/-- Sum of the counts held in one of the summary dicts. -/
def sumVals (m : List (String × Nat)) : Nat := (m.map (fun kv => kv.2)).sum

/-- A layout descriptor with every optional key absent, used by the
concrete counterexamples. -/
def bareLayout : Layout :=
  { semantic_name := none
    category := none
    subcategory := none
    «structure» := none
    use_cases := none
    placeholders := none }

/-- A two-entry catalog whose iteration order lists the larger id first;
both descriptors are identical, so both always score identically. -/
def tieCatalog : List (String × Layout) := [("b", bareLayout), ("a", bareLayout)]

/-! ## Helper lemmas -/

theorem toList_append (s t : String) : (s ++ t).toList = s.toList ++ t.toList := by
  simp [String.toList, String.data_append]

theorem infix_extend_right {l₁ l₂ l₃ : List Char} (h : l₁ <:+: l₂) : l₁ <:+: l₂ ++ l₃ := by
  obtain ⟨s, t, rfl⟩ := h
  exact ⟨s, t ++ l₃, by simp⟩

theorem infix_extend_left {l₁ l₂ l₃ : List Char} (h : l₁ <:+: l₂) : l₁ <:+: l₃ ++ l₂ := by
  obtain ⟨s, t, rfl⟩ := h
  exact ⟨l₃ ++ s, t, by simp⟩

theorem sumVals_bump (m : List (String × Nat)) (k : String) :
    sumVals (bump m k) = sumVals m + 1 := by
  induction m with
  | nil => simp [bump, sumVals]
  | cons kv rest ih =>
    obtain ⟨k2, v⟩ := kv
    by_cases h : k2 = k <;> simp [bump, h, sumVals] at ih ⊢ <;> omega

theorem summarizeStep_fields (s : PlaceholderSummary) (kv : String × Placeholder) :
    (summarizeStep s kv).total_count = s.total_count ∧
    sumVals (summarizeStep s kv).by_type = sumVals s.by_type + 1 ∧
    sumVals (summarizeStep s kv).by_column = sumVals s.by_column + 1 ∧
    (summarizeStep s kv).required_count ≤ s.required_count + 1 := by
  unfold summarizeStep
  by_cases h : kv.2.required.getD false <;>
    simp [h, sumVals_bump]

theorem summarize_fold (l : List (String × Placeholder)) :
    ∀ s : PlaceholderSummary,
      (l.foldl summarizeStep s).total_count = s.total_count ∧
      sumVals (l.foldl summarizeStep s).by_type = sumVals s.by_type + l.length ∧
      sumVals (l.foldl summarizeStep s).by_column = sumVals s.by_column + l.length ∧
      (l.foldl summarizeStep s).required_count ≤ s.required_count + l.length := by
  induction l with
  | nil => intro s; simp
  | cons kv rest ih =>
    intro s
    obtain ⟨h1, h2, h3, h4⟩ := summarizeStep_fields s kv
    obtain ⟨g1, g2, g3, g4⟩ := ih (summarizeStep s kv)
    refine ⟨?_, ?_, ?_, ?_⟩ <;> simp only [List.foldl_cons, List.length_cons] <;> omega

/-- Sequential if/elif score accumulation over abstract mutually exclusive
conditions equals the independent additive sum of its terms; this is the
shape shared by `_calculate_layout_score` (the elif chains branch on
distinct values of one field, so they are exclusive by construction). -/
theorem score_chain_eq (c1 c2 c3 c4 c5 d1 d2 cu : Prop)
    [Decidable c1] [Decidable c2] [Decidable c3] [Decidable c4] [Decidable c5]
    [Decidable d1] [Decidable d2] [Decidable cu]
    (hc : Bool) (cp dp : Nat)
    (h12 : ¬(c1 ∧ c2)) (h13 : ¬(c1 ∧ c3)) (h23 : ¬(c2 ∧ c3))
    (h45 : ¬(c4 ∧ c5)) (hd : ¬(d1 ∧ d2)) :
    (let score : Int := 0
     let score := if c1 then score + 3 else if c2 then score + 3 else if c3 then score + 3 else score
     let score := if c4 then score + 2 else if c5 then score + 2 else score
     let score :=
       if hc then
         let score := if 0 < cp then score + 2 else score
         let score := if 5 < dp ∧ 2 ≤ cp then score + 1 else score
         score
       else if 0 < cp then score - 1 else score
     let score := if d1 then score + 1 else if d2 then score + 1 else score
     let score := if cu then score + 1 else score
     score)
    = (if c1 then 3 else 0) + (if c2 then 3 else 0) + (if c3 then 3 else 0)
      + (if c4 then 2 else 0) + (if c5 then 2 else 0)
      + (if hc = true ∧ 0 < cp then 2 else 0)
      + (if hc = true ∧ 5 < dp ∧ 2 ≤ cp then 1 else 0)
      + (if hc = false ∧ 0 < cp then -1 else 0)
      + (if d1 then 1 else 0) + (if d2 then 1 else 0)
      + (if cu then 1 else 0) := by
  cases hc <;>
    by_cases h1 : c1 <;> by_cases h2 : c2 <;> by_cases h3 : c3 <;>
    by_cases h4 : c4 <;> by_cases h5 : c5 <;>
    by_cases hp : 0 < cp <;> by_cases hq : 5 < dp ∧ 2 ≤ cp <;>
    by_cases hdd1 : d1 <;> by_cases hdd2 : d2 <;> by_cases hu : cu <;>
    simp_all <;> omega

/-! ## Claim C1 -/

/-- Claim C1: for every `ContentAnalysis` record and every layout
descriptor, `_calculate_layout_score` equals the sum of exactly the eleven
independent bonus/penalty terms of the spec table (`score_spec`), each term
evaluated independently, several possibly firing for the same layout. -/
theorem calculate_layout_score_eq_spec_table (analysis : ContentAnalysis)
    (layout_info : Layout) :
    calculate_layout_score analysis layout_info = score_spec analysis layout_info :=
  score_chain_eq
    (analysis.content_type = "data_visualization" ∧
      layout_info.category.getD "" = "data_visualization")
    (analysis.content_type = "narrative" ∧ layout_info.category.getD "" = "content")
    (analysis.content_type = "dashboard" ∧
      inStr "dashboard" (layout_info.subcategory.getD "") = true)
    (analysis.«structure» = "comparison" ∧
      inStr "two_column" (layout_info.«structure».getD "") = true)
    (analysis.«structure» = "single_topic" ∧
      inStr "single_column" (layout_info.«structure».getD "") = true)
    (analysis.text_density = "high" ∧ 2 ≤ textPlaceholderCount layout_info)
    (analysis.text_density = "low" ∧ textPlaceholderCount layout_info = 1)
    (((layout_info.use_cases.getD []).map replaceSpaces).contains analysis.content_type = true)
    analysis.has_charts (chartPlaceholderCount layout_info) analysis.data_points
    (by rintro ⟨⟨ha, _⟩, hb, _⟩; rw [ha] at hb; exact absurd hb (by decide))
    (by rintro ⟨⟨ha, _⟩, hb, _⟩; rw [ha] at hb; exact absurd hb (by decide))
    (by rintro ⟨⟨ha, _⟩, hb, _⟩; rw [ha] at hb; exact absurd hb (by decide))
    (by rintro ⟨⟨ha, _⟩, hb, _⟩; rw [ha] at hb; exact absurd hb (by decide))
    (by rintro ⟨⟨ha, _⟩, hb, _⟩; rw [ha] at hb; exact absurd hb (by decide))

/-! ## Claim C10 -/

/-- Claim C10: for every layout descriptor, the placeholder summary built by
`_summarize_placeholders` has `total_count` equal to the number of
placeholders, `by_type` counts summing to `total_count`, `by_column` counts
summing to `total_count` (a missing column tag is counted under the default
tag "none"), and `required_count` between 0 and `total_count`. -/
theorem placeholder_summary_invariants (layout : Layout) :
    (summarize_placeholders layout).total_count = (layout.placeholders.getD []).length ∧
    sumVals (summarize_placeholders layout).by_type =
      (summarize_placeholders layout).total_count ∧
    sumVals (summarize_placeholders layout).by_column =
      (summarize_placeholders layout).total_count ∧
    (summarize_placeholders layout).required_count ≤
      (summarize_placeholders layout).total_count := by
  obtain ⟨h1, h2, h3, h4⟩ :=
    summarize_fold (layout.placeholders.getD [])
      { total_count := (layout.placeholders.getD []).length
        by_type := []
        by_column := []
        required_count := 0 }
  simp only [summarize_placeholders]
  simp only [sumVals, List.map_nil, List.sum_nil] at h2 h3 ⊢
  simp only at h1 h4
  exact ⟨h1, by omega, by omega, by omega⟩

/-! ## Claim C9 -/

/-- Claim C9 counterexample: for an id absent from the catalog,
`get_layout_details` does not fail with a typed NotFound error; it returns
an ordinary result value, the dict `{"error": "Layout <id> not found"}`. -/
theorem get_layout_details_missing_counterexample :
    get_layout_details tieCatalog "missing_layout" =
      .errorDict "Layout missing_layout not found" := by
  decide

/-- Claim C9 as amended: for every layout id absent from the catalog,
`get_layout_details` returns the error dict `{"error": "Layout <id> not
found"}` — an ordinary mapping whose message contains the requested id —
rather than raising a typed error, and no fallback layout is produced. -/
theorem get_layout_details_missing_error_dict
    (layouts : List (String × Layout)) (layout_id : String)
    (h : lookupLayout layouts layout_id = none) :
    get_layout_details layouts layout_id =
      .errorDict ("Layout " ++ layout_id ++ " not found") ∧
    layout_id.toList <:+: ("Layout " ++ layout_id ++ " not found").toList := by
  constructor
  · unfold get_layout_details
    rw [h]
  · exact ⟨"Layout ".toList, " not found".toList, by simp [toList_append]⟩

/-- Claim C9 witness: the amended theorem applied to the empty catalog and
the id "x". -/
theorem get_layout_details_missing_error_dict_witness :
    get_layout_details [] "x" = .errorDict ("Layout " ++ "x" ++ " not found") ∧
    "x".toList <:+: ("Layout " ++ "x" ++ " not found").toList :=
  get_layout_details_missing_error_dict [] "x" rfl

/-! ## Claim C6 -/

/-- Claim C6: for every bundle that is a mapping whose key set meets
{left, right, before, after, vs}, `analyze_content` classifies the
structure as "comparison", whatever the corpus text says: the key-based
hint is checked before the sequence-valued check and all text heuristics. -/
theorem comparison_key_precedence (entries : List (String × Value))
    (h : entries.any (fun kv =>
      (["left", "right", "before", "after", "vs"] : List String).contains kv.1) = true) :
    (analyze_content (.map entries)).«structure» = "comparison" := by
  show analyze_structure (.map entries) (extract_text (.map entries)) = "comparison"
  simp only [analyze_structure]
  rw [if_pos h]

/-- Claim C6 witness: a bundle with key "left" whose text contains the word
"dashboard" and list and comparison cues still classifies as comparison. -/
theorem comparison_key_precedence_witness :
    (analyze_content (.map [("left", .str "dashboard first versus")])).«structure» =
      "comparison" :=
  comparison_key_precedence [("left", .str "dashboard first versus")] (by decide)

/-! ## Claim C5 -/

theorem analyze_content_type_eq (c : Value) :
    (analyze_content c).content_type =
      determine_content_type (analyze_content c).has_charts (analyze_content c).has_tables
        (analyze_content c).text_density (analyze_content c).«structure» := rfl

theorem determine_cases (hc ht : Bool) (td st : String) :
    (hc = true → ht = true → determine_content_type hc ht td st = "dashboard") ∧
    (hc = true → ht = false → determine_content_type hc ht td st = "data_visualization") ∧
    (hc = false → ht = true → determine_content_type hc ht td st = "data_table") ∧
    (hc = false → ht = false → td = "high" →
      determine_content_type hc ht td st = "narrative") ∧
    (hc = false → ht = false → td ≠ "high" → st = "comparison" →
      determine_content_type hc ht td st = "comparison") ∧
    (hc = false → ht = false → td ≠ "high" → st ≠ "comparison" → st = "list" →
      determine_content_type hc ht td st = "bullet_points") ∧
    (hc = false → ht = false → td ≠ "high" → st ≠ "comparison" → st ≠ "list" →
      determine_content_type hc ht td st = "general_content") := by
  cases hc <;> cases ht <;>
    refine ⟨?_, ?_, ?_, ?_, ?_, ?_, ?_⟩ <;> intros <;> simp_all [determine_content_type]

/-- Claim C5: the content type produced by `analyze_content` follows the
exact precedence chain: charts and tables give dashboard; else charts only
give data_visualization; else tables only give data_table; else high
density gives narrative; else comparison structure gives comparison; else
list structure gives bullet_points; otherwise general_content. -/
theorem content_type_precedence (content : Value) :
    ((analyze_content content).has_charts = true →
      (analyze_content content).has_tables = true →
      (analyze_content content).content_type = "dashboard") ∧
    ((analyze_content content).has_charts = true →
      (analyze_content content).has_tables = false →
      (analyze_content content).content_type = "data_visualization") ∧
    ((analyze_content content).has_charts = false →
      (analyze_content content).has_tables = true →
      (analyze_content content).content_type = "data_table") ∧
    ((analyze_content content).has_charts = false →
      (analyze_content content).has_tables = false →
      (analyze_content content).text_density = "high" →
      (analyze_content content).content_type = "narrative") ∧
    ((analyze_content content).has_charts = false →
      (analyze_content content).has_tables = false →
      (analyze_content content).text_density ≠ "high" →
      (analyze_content content).«structure» = "comparison" →
      (analyze_content content).content_type = "comparison") ∧
    ((analyze_content content).has_charts = false →
      (analyze_content content).has_tables = false →
      (analyze_content content).text_density ≠ "high" →
      (analyze_content content).«structure» ≠ "comparison" →
      (analyze_content content).«structure» = "list" →
      (analyze_content content).content_type = "bullet_points") ∧
    ((analyze_content content).has_charts = false →
      (analyze_content content).has_tables = false →
      (analyze_content content).text_density ≠ "high" →
      (analyze_content content).«structure» ≠ "comparison" →
      (analyze_content content).«structure» ≠ "list" →
      (analyze_content content).content_type = "general_content") := by
  rw [analyze_content_type_eq]
  exact determine_cases (analyze_content content).has_charts (analyze_content content).has_tables
    (analyze_content content).text_density (analyze_content content).«structure»

/-- Claim C5 witness: a bundle with both chart and table keywords
classifies as dashboard. -/
theorem content_type_precedence_witness :
    (analyze_content (Value.str "chart table")).content_type = "dashboard" :=
  (content_type_precedence (Value.str "chart table")).1 (by decide) (by decide)

/-! ## Claim C7 -/

/-- Claim C7: text density is low for word count below 20, medium from 20
up to 99, and high from 100 on; corpora of exactly 19, 20, 99 and 100
words give low, medium, medium and high. -/
theorem text_density_boundaries :
    (∀ content : Value,
      (countWords (extract_text content).toList < 20 →
        (analyze_content content).text_density = "low") ∧
      (20 ≤ countWords (extract_text content).toList →
        countWords (extract_text content).toList < 100 →
        (analyze_content content).text_density = "medium") ∧
      (100 ≤ countWords (extract_text content).toList →
        (analyze_content content).text_density = "high")) ∧
    (analyze_content (.str (String.intercalate " " (List.replicate 19 "x")))).text_density
      = "low" ∧
    (analyze_content (.str (String.intercalate " " (List.replicate 20 "x")))).text_density
      = "medium" ∧
    (analyze_content (.str (String.intercalate " " (List.replicate 99 "x")))).text_density
      = "medium" ∧
    (analyze_content (.str (String.intercalate " " (List.replicate 100 "x")))).text_density
      = "high" := by
  refine ⟨?_, by decide, by decide, by decide, by decide⟩
  intro content
  have h : (analyze_content content).text_density =
      (if countWords (extract_text content).toList < 20 then "low"
       else if countWords (extract_text content).toList < 100 then "medium"
       else "high") := rfl
  rw [h]
  refine ⟨fun h1 => by rw [if_pos h1],
    fun h1 h2 => by rw [if_neg (by omega), if_pos h2],
    fun h1 => by rw [if_neg (by omega), if_neg (by omega)]⟩

/-- Claim C7 witness: the low-density clause applied to a one-word corpus. -/
theorem text_density_boundaries_witness :
    (analyze_content (Value.str "hello")).text_density = "low" :=
  (text_density_boundaries.1 (Value.str "hello")).1 (by decide)

/-! ## Claim C8 -/

theorem analyze_structure_mem (content : Value) (text : String) :
    analyze_structure content text ∈
      (["comparison", "list", "narrative", "single_topic"] : List String) := by
  rcases content with s | items | entries <;>
    simp only [analyze_structure] <;> split_ifs <;> simp

theorem determine_mem (hc ht : Bool) (td st : String) :
    determine_content_type hc ht td st ∈
      (["dashboard", "data_visualization", "data_table", "narrative",
        "comparison", "bullet_points", "general_content"] : List String) := by
  cases hc <;> cases ht <;> simp only [determine_content_type] <;> split_ifs <;> simp

/-- Claim C8: `analyze_content` is total (it is a plain function in this
embedding and returns a well-formed record on every bundle, with density,
structure and content type drawn from their documented enumerations), and
on the empty mapping returns low density, zero data points and
general_content. -/
theorem analyze_total_shape :
    (∀ content : Value,
      (analyze_content content).text_density ∈ (["low", "medium", "high"] : List String) ∧
      (analyze_content content).«structure» ∈
        (["comparison", "list", "narrative", "single_topic"] : List String) ∧
      (analyze_content content).content_type ∈
        (["dashboard", "data_visualization", "data_table", "narrative",
          "comparison", "bullet_points", "general_content"] : List String)) ∧
    (analyze_content (.map [])).text_density = "low" ∧
    (analyze_content (.map [])).data_points = 0 ∧
    (analyze_content (.map [])).content_type = "general_content" := by
  refine ⟨?_, by decide, by decide, by decide⟩
  intro content
  refine ⟨?_, ?_, ?_⟩
  · have h : (analyze_content content).text_density =
        (if countWords (extract_text content).toList < 20 then "low"
         else if countWords (extract_text content).toList < 100 then "medium"
         else "high") := rfl
    rw [h]; split_ifs <;> simp
  · have h : (analyze_content content).«structure» =
        analyze_structure content (extract_text content) := rfl
    rw [h]; exact analyze_structure_mem content (extract_text content)
  · rw [analyze_content_type_eq]; exact determine_mem ..

/-! ## Claims C3, C2 and C4 with their supporting lemmas -/

theorem length_insertRec (x : String × Int × String) (ys : List (String × Int × String)) :
    (insertRec x ys).length = ys.length + 1 := by
  induction ys with
  | nil => rfl
  | cons y ys ih => simp only [insertRec]; split_ifs <;> simp_all

theorem length_sortRecs (l : List (String × Int × String)) :
    (sortRecs l).length = l.length := by
  induction l with
  | nil => rfl
  | cons x xs ih => simp [sortRecs, length_insertRec, ih]

theorem length_scored (layouts : List (String × Layout)) (content : Value) :
    (scored_recommendations layouts content).length = layouts.length := by
  simp [scored_recommendations]

/-- Claim C3 counterexample: `recommend_layouts` does not fail for
`top_n ≤ 0`: at `top_n = 0` it returns the empty sequence and at
`top_n = -1` it returns a partial result (one of the two catalog entries),
Python slice semantics, with no InvalidArgument condition anywhere. -/
theorem recommend_nonpositive_counterexample :
    recommend_layouts tieCatalog (.map []) 0 = [] ∧
    recommend_layouts tieCatalog (.map []) (-1) =
      [("b", 0, "Unknown Layout: Partial match")] :=
  ⟨by decide, by decide⟩

/-- Claim C3 as amended: for every `top_n ≤ 0`, `recommend_layouts`
returns without error the Python slice `recommendations[:top_n]`: the
empty sequence when `top_n = 0`, and all but the last `|top_n|`
recommendations when `top_n < 0`. -/
theorem recommend_nonpositive_slice (layouts : List (String × Layout)) (content : Value)
    (top_n : Int) (h : top_n ≤ 0) :
    (top_n = 0 → recommend_layouts layouts content top_n = []) ∧
    (top_n < 0 → (recommend_layouts layouts content top_n).length
        = ((layouts.length : Int) + top_n).toNat) := by
  constructor
  · rintro rfl
    simp [recommend_layouts, pySliceTo]
  · intro hneg
    simp only [recommend_layouts, pySliceTo]
    rw [if_pos hneg, List.length_take, length_sortRecs, length_scored]
    omega

/-- Claim C3 witness: the amended theorem applied to the two-entry
catalog at `top_n = -1`. -/
theorem recommend_nonpositive_slice_witness :
    (recommend_layouts tieCatalog (Value.map []) (-1)).length
      = ((tieCatalog.length : Int) + (-1)).toNat :=
  (recommend_nonpositive_slice tieCatalog (Value.map []) (-1) (by decide)).2 (by decide)

theorem mem_insertRec (x z : String × Int × String) (ys : List (String × Int × String))
    (h : z ∈ insertRec x ys) : z = x ∨ z ∈ ys := by
  induction ys with
  | nil => simp [insertRec] at h; exact Or.inl h
  | cons y ys ih =>
    simp only [insertRec] at h
    split_ifs at h with hlt
    · rcases List.mem_cons.mp h with h | h
      · exact Or.inr (by simp [h])
      · rcases ih h with h | h
        · exact Or.inl h
        · exact Or.inr (by simp [h])
    · rcases List.mem_cons.mp h with h | h
      · exact Or.inl h
      · exact Or.inr h

theorem pairwise_insertRec (x : String × Int × String) (ys : List (String × Int × String))
    (h : List.Pairwise (fun p q : String × Int × String => q.2.1 ≤ p.2.1) ys) :
    List.Pairwise (fun p q : String × Int × String => q.2.1 ≤ p.2.1) (insertRec x ys) := by
  induction ys with
  | nil => simp [insertRec]
  | cons y ys ih =>
    rw [List.pairwise_cons] at h
    obtain ⟨h1, h2⟩ := h
    simp only [insertRec]
    split_ifs with hlt
    · rw [List.pairwise_cons]
      refine ⟨?_, ih h2⟩
      intro z hz
      rcases mem_insertRec x z ys hz with rfl | hz
      · omega
      · exact h1 z hz
    · rw [List.pairwise_cons]
      refine ⟨?_, by rw [List.pairwise_cons]; exact ⟨h1, h2⟩⟩
      intro z hz
      rcases List.mem_cons.mp hz with rfl | hz
      · omega
      · have := h1 z hz
        omega

theorem pairwise_sortRecs (l : List (String × Int × String)) :
    List.Pairwise (fun p q : String × Int × String => q.2.1 ≤ p.2.1) (sortRecs l) := by
  induction l with
  | nil => simp [sortRecs]
  | cons x xs ih => exact pairwise_insertRec x (sortRecs xs) ih

theorem filter_cons_beq (p : (String × Int × String) → Bool) (a : String × Int × String)
    (l : List (String × Int × String)) :
    (a :: l).filter p = if p a then a :: l.filter p else l.filter p := by
  by_cases h : p a = true <;> simp [h]

theorem filter_insertRec (x : String × Int × String) (ys : List (String × Int × String))
    (s : Int) :
    (insertRec x ys).filter (fun r => r.2.1 == s) =
      (if x.2.1 == s then [x] else []) ++ ys.filter (fun r => r.2.1 == s) := by
  induction ys with
  | nil =>
    by_cases hx : x.2.1 == s <;>
      simp [insertRec, List.filter_cons, List.filter_nil, hx]
  | cons y ys ih =>
    simp only [insertRec]
    by_cases hlt : x.2.1 < y.2.1
    · rw [if_pos hlt, filter_cons_beq, ih, filter_cons_beq]
      by_cases hy : y.2.1 == s <;> by_cases hx : x.2.1 == s <;>
        first
          | (simp only [beq_iff_eq] at hx hy
             exfalso
             omega)
          | simp [hy, hx]
    · rw [if_neg hlt, filter_cons_beq]
      by_cases hx : x.2.1 == s <;> simp [hx]

theorem filter_sortRecs (l : List (String × Int × String)) (s : Int) :
    (sortRecs l).filter (fun r => r.2.1 == s) = l.filter (fun r => r.2.1 == s) := by
  induction l with
  | nil => rfl
  | cons x xs ih =>
    show (insertRec x (sortRecs xs)).filter (fun r => r.2.1 == s) = _
    rw [filter_insertRec, ih, List.filter_cons]
    by_cases hx : x.2.1 == s <;> simp_all

/-- Claim C2 as amended: for every catalog, bundle and positive `top_n`,
`recommend_layouts` returns at most `top_n` entries sorted in descending
score order; entries with equal score keep the catalog iteration order
(the sort is stable: restricting the sorted list to any one score value
yields exactly the corresponding sublist of the scored input), not the
ascending layout id order. -/
theorem recommend_sorted_stable (layouts : List (String × Layout)) (content : Value)
    (top_n : Int) (s : Int) (h : 0 < top_n) :
    (recommend_layouts layouts content top_n).length ≤ top_n.toNat ∧
    List.Pairwise (fun p q : String × Int × String => q.2.1 ≤ p.2.1)
      (recommend_layouts layouts content top_n) ∧
    (sortRecs (scored_recommendations layouts content)).filter (fun r => r.2.1 == s)
      = (scored_recommendations layouts content).filter (fun r => r.2.1 == s) := by
  refine ⟨?_, ?_, filter_sortRecs _ _⟩
  · simp only [recommend_layouts, pySliceTo]
    rw [if_neg (by omega), List.length_take]
    omega
  · simp only [recommend_layouts, pySliceTo]
    exact (pairwise_sortRecs _).sublist (List.take_sublist _ _)

/-- Claim C2 witness: the amended theorem applied to the two-entry
catalog with the empty bundle, `top_n = 2` and score level 0. -/
theorem recommend_sorted_stable_witness :
    (recommend_layouts tieCatalog (Value.map []) 2).length ≤ (2 : Int).toNat ∧
    List.Pairwise (fun p q : String × Int × String => q.2.1 ≤ p.2.1)
      (recommend_layouts tieCatalog (Value.map []) 2) ∧
    (sortRecs (scored_recommendations tieCatalog (Value.map []))).filter
        (fun r => r.2.1 == (0 : Int))
      = (scored_recommendations tieCatalog (Value.map [])).filter
        (fun r => r.2.1 == (0 : Int)) :=
  recommend_sorted_stable tieCatalog (Value.map []) 2 0 (by decide)

/-- Claim C2 counterexample: on a catalog whose iteration order lists id
"b" before id "a" with identical descriptors, both entries score equally
yet `recommend_layouts` returns them in catalog order ("b" first), even
though "a" < "b", so equal-score entries are not ordered by ascending
layout id. -/
theorem recommend_tie_order_counterexample :
    recommend_layouts tieCatalog (Value.map []) 2 =
      [("b", 0, "Unknown Layout: Partial match"),
       ("a", 0, "Unknown Layout: Partial match")] ∧
    ("a" : String) < "b" :=
  ⟨by decide, by rw [String.lt_iff_toList_lt]; decide⟩

theorem extractStep_decomp (acc : String) (kv : String × Value) :
    extractStep acc kv = acc ++ extractStep "" kv := by
  rcases kv with ⟨k, v⟩
  rcases v with s | items | m <;>
    simp [extractStep, String.append_assoc, String.empty_append, String.append_empty]

theorem foldl_extractStep (entries : List (String × Value)) :
    ∀ acc : String, entries.foldl extractStep acc = acc ++ entries.foldl extractStep "" := by
  induction entries with
  | nil => intro acc; simp [String.append_empty]
  | cons e rest ih =>
    intro acc
    rw [List.foldl_cons, List.foldl_cons, ih (extractStep acc e), ih (extractStep "" e),
      extractStep_decomp acc e, String.append_assoc]

theorem mem_pyJoin_inf (a : String) (l : List String) (h : a ∈ l) :
    a.toList <:+: (pyJoin " " l).toList := by
  induction l with
  | nil => cases h
  | cons x xs ih =>
    rcases List.mem_cons.mp h with rfl | h
    · cases xs with
      | nil => exact List.infix_refl _
      | cons y ys =>
        show a.toList <:+: (a ++ " " ++ pyJoin " " (y :: ys)).toList
        rw [toList_append, toList_append]
        exact infix_extend_right (infix_extend_right (List.infix_refl _))
    · cases xs with
      | nil => cases h
      | cons y ys =>
        show a.toList <:+: (x ++ " " ++ pyJoin " " (y :: ys)).toList
        rw [toList_append, toList_append]
        exact infix_extend_left (ih h)

/-- Claim C4 counterexample: a string leaf inside a nested mapping is not
flattened into the corpus: the bundle `{"outer": {"inner": "hello"}}`
yields the empty corpus, which does not contain "hello". -/
theorem corpus_nested_mapping_counterexample :
    extract_text (.map [("outer", .map [("inner", .str "hello")])]) = "" ∧
    ¬ ("hello".toList <:+:
        (extract_text (.map [("outer", .map [("inner", .str "hello")])])).toList) :=
  ⟨by decide, by decide⟩

/-- Claim C4 as amended: the corpus contains every top-level string value
of the bundle mapping and every string element of every top-level sequence
value (and never appends key names, which is visible in `extractStep`);
string leaves inside nested mappings are skipped. -/
theorem corpus_contains_top_level_leaves (entries : List (String × Value)) (k : String)
    (v : Value) (h : (k, v) ∈ entries) :
    (∀ s, v = Value.str s → s.toList <:+: (extract_text (.map entries)).toList) ∧
    (∀ items s, v = Value.list items → Value.str s ∈ items →
      s.toList <:+: (extract_text (.map entries)).toList) := by
  induction entries with
  | nil => cases h
  | cons e rest ih =>
    have hdecomp : extract_text (.map (e :: rest)) =
        extractStep "" e ++ extract_text (.map rest) := by
      show (e :: rest).foldl extractStep "" = _
      rw [List.foldl_cons, foldl_extractStep rest (extractStep "" e)]
      rfl
    rcases List.mem_cons.mp h with he | h
    · constructor
      · rintro s rfl
        rw [hdecomp, ← he, toList_append]
        have hstep : extractStep "" (k, Value.str s) = "" ++ s ++ " " := rfl
        rw [hstep, toList_append, toList_append]
        exact infix_extend_right (infix_extend_right (infix_extend_left (List.infix_refl _)))
      · rintro items s rfl hmem
        rw [hdecomp, ← he, toList_append]
        have hstep : extractStep "" (k, Value.list items) =
            "" ++ pyJoin " " (items.map pyStrOfVal) ++ " " := rfl
        rw [hstep, toList_append, toList_append]
        have hs : s ∈ items.map pyStrOfVal := by
          have hp : pyStrOfVal (Value.str s) = s := rfl
          exact hp ▸ List.mem_map_of_mem pyStrOfVal hmem
        exact infix_extend_right (infix_extend_right (infix_extend_left (mem_pyJoin_inf s _ hs)))
    · obtain ⟨ih1, ih2⟩ := ih h
      constructor
      · rintro s rfl
        rw [hdecomp, toList_append]
        exact infix_extend_left (ih1 s rfl)
      · rintro items s rfl hmem
        rw [hdecomp, toList_append]
        exact infix_extend_left (ih2 items s rfl hmem)

/-- Claim C4 witness: the amended theorem applied to a one-entry bundle. -/
theorem corpus_contains_top_level_leaves_witness :
    "hi".toList <:+: (extract_text (.map [("a", Value.str "hi")])).toList :=
  (corpus_contains_top_level_leaves [("a", Value.str "hi")] "a" (Value.str "hi")
    (List.mem_cons_self _ _)).1 "hi" rfl

end SmartLayoutSel

